import Mathlib

/-!
Verification of the ResoNest CLI command-orchestration pipeline
(`ResoNestCli/build_manager.py`, `ResoNestCli/cli.py`).

The Python code is shallowly embedded: every external effect (a log call, a
subprocess invocation, a progress-bar update) is recorded as an `Event` in a
trace, the environment (filesystem checks and the outcome of each subprocess
invocation) is an oracle `World`, and abnormal termination (`sys.exit` or an
uncaught exception) is an `Except` error.  Python `str` operations used by the
code (`splitlines`, `split`, `strip`, substring membership, `join`) are
re-implemented by structural recursion on `List Char` so that everything
computes inside the kernel.
-/

namespace ResoNest

/-- Python-string helpers: split a character list at every occurrence of `c`. -/
def splitChAux (c : Char) : List Char → List (List Char)
  | [] => [[]]
  | x :: xs =>
    let r := splitChAux c xs
    if x = c then [] :: r
    else
      match r with
      | [] => [[x]]
      | h :: t => (x :: h) :: t

/-- `s.split(c)` for a single-character separator, as in Python. -/
def splitOnCh (c : Char) (s : String) : List String :=
  (splitChAux c s.data).map String.mk

/-- Python `line.split('=')`. -/
def splitOnEq (s : String) : List String :=
  splitOnCh (Char.ofNat 61) s

/-- Python `str.splitlines()`: split on newline, no trailing empty line. -/
def splitlines (s : String) : List String :=
  let parts := splitOnCh (Char.ofNat 10) s
  match parts.getLast? with
  | some last => if last = "" then parts.dropLast else parts
  | none => parts

/-- Python whitespace test for `str.strip()`. -/
def isSpaceCh (c : Char) : Bool :=
  c == Char.ofNat 32 || c == Char.ofNat 9 || c == Char.ofNat 10 || c == Char.ofNat 13 || c == Char.ofNat 11 || c == Char.ofNat 12

/-- Python `str.strip()`: drop whitespace from both ends. -/
def pyStrip (s : String) : String :=
  String.mk (((s.data.dropWhile isSpaceCh).reverse.dropWhile isSpaceCh).reverse)

/-- Substring occurrence on character lists. -/
def isSubListOf (pat : List Char) : List Char → Bool
  | [] => pat.isEmpty
  | x :: xs => pat.isPrefixOf (x :: xs) || isSubListOf pat xs

/-- Python `pat in s` substring membership. -/
def containsSub (s pat : String) : Bool :=
  isSubListOf pat.data s.data

/-- Python space-join of the command words. -/
def joinSpace (command : List String) : String :=
  String.intercalate " " command

/-- `str(Path(...))`: a path is a list of components joined by slashes. -/
def pathStr (p : List String) : String :=
  String.intercalate "/" p

/-- Severities used by the loguru logger calls in the source. -/
inductive Level where
  | debug
  | info
  | warning
  | error
deriving DecidableEq, Repr

/-- One observable effect of the pipeline. -/
inductive Event where
  | log (lvl : Level) (msg : String)
  | cmd (args : List String)
  | progressAdd (label : String) (total : Nat)
  | progressAdv (amount : Nat)
deriving DecidableEq, Repr

/-- How a run of the pipeline terminates abnormally: `sys.exit(code)` or an
uncaught Python exception. -/
inductive Halt where
  | exited (code : Nat)
  | crashed (msg : String)
deriving DecidableEq, Repr

/-- The effect monad: an event trace plus either a value or a termination. -/
def M (α : Type) : Type :=
  List Event × Except Halt α

def M.pure (a : α) : M α :=
  ([], Except.ok a)

def M.bind (x : M α) (f : α → M β) : M β :=
  match x.2 with
  | Except.error h => (x.1, Except.error h)
  | Except.ok a => (x.1 ++ (f a).1, (f a).2)

instance : Monad M where
  pure := M.pure
  bind := M.bind

def logDebug (msg : String) : M Unit :=
  ([Event.log Level.debug msg], Except.ok ())

def logInfo (msg : String) : M Unit :=
  ([Event.log Level.info msg], Except.ok ())

def logWarning (msg : String) : M Unit :=
  ([Event.log Level.warning msg], Except.ok ())

def logError (msg : String) : M Unit :=
  ([Event.log Level.error msg], Except.ok ())

/-- One logger call per line of captured output. -/
def logLines (lvl : Level) (ls : List String) : M Unit :=
  (ls.map (Event.log lvl), Except.ok ())

/-- The subprocess invocation itself. -/
def emitCmd (c : List String) : M Unit :=
  ([Event.cmd c], Except.ok ())

def progressAddTask (label : String) (total : Nat) : M Unit :=
  ([Event.progressAdd label total], Except.ok ())

def progressAdvance (n : Nat) : M Unit :=
  ([Event.progressAdv n], Except.ok ())

/-- `sys.exit(code)`. -/
def sysExit (code : Nat) : M α :=
  ([], Except.error (Halt.exited code))

/-- An uncaught Python exception propagating out. -/
def pyCrash (msg : String) : M α :=
  ([], Except.error (Halt.crashed msg))

/-- Outcome of one attempted subprocess invocation: either the launch raised
(`launchError`), or the process ran with `exitCode` and combined `output`. -/
structure ExecResult where
  launchError : Option String
  exitCode : Nat
  output : String

/-- The environment oracle: filesystem facts and subprocess outcomes. -/
structure World where
  exec : List String → ExecResult
  plistExists : Bool
  appPathExists : Bool

/-- `SimulatorConfig` of `build_manager.py`, with its pydantic defaults.
Paths are component lists. -/
structure SimulatorConfig where
  device_name : String := "iPhone 16 Plus"
  os_version : String := "18.0"
  scheme : String := "ResoNest"
  configuration : String := "Debug"
  destination : String := "platform=iOS Simulator,name=iPhone 16 Plus,OS=18.0"
  derived_data_path : List String := ["build"]
  app_path : Option (List String) := none

/-- The after-mode model validator of `SimulatorConfig`: derive `app_path`
when it was not supplied. -/
def SimulatorConfig.set_app_path (values : SimulatorConfig) : SimulatorConfig :=
  match values.app_path with
  | none =>
    { values with
        app_path := some (values.derived_data_path ++
          ["Build", "Products", values.configuration ++ "-iphonesimulator",
            values.scheme ++ ".app"]) }
  | some _ => values

/-- The finalized (post-validator, never-`None`) application bundle path. -/
def SimulatorConfig.appPath (c : SimulatorConfig) : List String :=
  c.app_path.getD []

/-- The rendered path of the Info.plist inside the app bundle. -/
def SimulatorConfig.plistPathStr (c : SimulatorConfig) : String :=
  pathStr (c.appPath ++ ["Info.plist"])

/-- `CommandRunner` state: the two `CommandRunnerConfig` flags. -/
structure CommandRunner where
  shell : Bool
  check : Bool

/-- `CommandRunner.run`: fail-fast execution.  `subprocess.run` raises
`CalledProcessError` exactly when `check` is set and the exit code is
non-zero; a launch failure (e.g. binary missing) is not caught here. -/
def CommandRunner.run (cr : CommandRunner) (w : World) (command : List String) : M String := do
  logDebug ("Executing command: " ++ joinSpace command)
  emitCmd command
  let res := w.exec command
  match res.launchError with
  | some e => pyCrash e
  | none =>
    if cr.check && (res.exitCode != 0) then do
      logError ("Command failed: " ++ joinSpace command)
      if cr.check then do
        logLines Level.error (splitlines res.output)
        sysExit 1
      else
        Pure.pure res.output
    else do
      logLines Level.debug (splitlines res.output)
      Pure.pure res.output

/-- `CommandRunner.run_safe`: never raises; maps a non-zero exit and a launch
failure alike to `success = false`. -/
def CommandRunner.run_safe (cr : CommandRunner) (w : World) (command : List String) : M (Bool × String) := do
  logDebug ("Executing command safely: " ++ joinSpace command)
  emitCmd command
  let res := w.exec command
  match res.launchError with
  | some e => do
    logError ("Exception while running command: " ++ e)
    Pure.pure (false, e)
  | none => do
    let success := res.exitCode == 0
    if success then
      logLines Level.debug (splitlines res.output)
    else do
      logWarning ("Command failed (but continuing): " ++ joinSpace command)
      logLines Level.debug (splitlines res.output)
    Pure.pure (success, res.output)

/-- `['plutil', '-convert', 'xml1', str(plist_path)]`. -/
def plutilCmd (cfg : SimulatorConfig) : List String :=
  ["plutil", "-convert", "xml1", cfg.plistPathStr]

/-- `['/usr/libexec/PlistBuddy', '-c', 'Print :CFBundleIdentifier', str(plist_path)]`. -/
def plistBuddyCmd (cfg : SimulatorConfig) : List String :=
  ["/usr/libexec/PlistBuddy", "-c", "Print :CFBundleIdentifier", cfg.plistPathStr]

/-- The speculative get-app-container query of `is_app_installed`. -/
def containerCmd (bid : String) : List String :=
  ["xcrun", "simctl", "get_app_container", "booted", bid]

def bootstatusCmd (cfg : SimulatorConfig) : List String :=
  ["xcrun", "simctl", "bootstatus", cfg.device_name]

def bootCmd (cfg : SimulatorConfig) : List String :=
  ["xcrun", "simctl", "boot", cfg.device_name]

def simInstallCmd (cfg : SimulatorConfig) : List String :=
  ["xcrun", "simctl", "install", "booted", pathStr cfg.appPath]

def launchCmd (bid : String) : List String :=
  ["xcrun", "simctl", "launch", "booted", bid]

def simUninstallCmd (bid : String) : List String :=
  ["xcrun", "simctl", "uninstall", "booted", bid]

def cleanCmd (cfg : SimulatorConfig) : List String :=
  ["xcodebuild", "clean", "-scheme", cfg.scheme, "-configuration", cfg.configuration,
    "-destination", cfg.destination, "-derivedDataPath", pathStr cfg.derived_data_path]

def buildCmd (cfg : SimulatorConfig) : List String :=
  ["xcodebuild", "build", "-scheme", cfg.scheme, "-configuration", cfg.configuration,
    "-destination", cfg.destination, "-derivedDataPath", pathStr cfg.derived_data_path,
    "-sdk", "iphonesimulator"]

def settingsCmd (cfg : SimulatorConfig) : List String :=
  ["xcodebuild", "-scheme", cfg.scheme, "-configuration", cfg.configuration,
    "-showBuildSettings"]

/-- `SimulatorManager.get_bundle_identifier`: fatal exit when `Info.plist` is
absent; otherwise normalize the plist, query `CFBundleIdentifier`, strip. -/
def SimulatorManager.get_bundle_identifier (w : World) (cr : CommandRunner) (cfg : SimulatorConfig) : M String := do
  let plist_path := cfg.plistPathStr
  if w.plistExists then do
    let _ ← cr.run w (plutilCmd cfg)
    let result ← cr.run w (plistBuddyCmd cfg)
    let bundle_identifier := pyStrip result
    logDebug ("Retrieved CFBundleIdentifier: " ++ bundle_identifier)
    Pure.pure bundle_identifier
  else do
    logError ("Info.plist not found at " ++ plist_path)
    sysExit 1

/-- `SimulatorManager.boot_simulator` (defined in the source, invoked by no
workflow). -/
def SimulatorManager.boot_simulator (w : World) (cr : CommandRunner) (cfg : SimulatorConfig) : M Unit := do
  logDebug ("Checking simulator boot status...")
  let _ ← cr.run w (bootstatusCmd cfg)
  logDebug ("Booting simulator...")
  let _ ← cr.run w (bootCmd cfg)
  Pure.pure ()

/-- `SimulatorManager.install_app`. -/
def SimulatorManager.install_app (w : World) (cr : CommandRunner) (cfg : SimulatorConfig) : M Unit := do
  logDebug ("Installing app on simulator...")
  let _ ← cr.run w (simInstallCmd cfg)
  Pure.pure ()

/-- `SimulatorManager.launch_app`. -/
def SimulatorManager.launch_app (w : World) (cr : CommandRunner) (bundle_identifier : String) : M Unit := do
  logDebug ("Launching app on simulator...")
  let _ ← cr.run w (launchCmd bundle_identifier)
  Pure.pure ()

/-- `SimulatorManager.uninstall_app`. -/
def SimulatorManager.uninstall_app (w : World) (cr : CommandRunner) (bundle_identifier : String) : M Unit := do
  logDebug ("Uninstalling app from simulator...")
  let _ ← cr.run w (simUninstallCmd bundle_identifier)
  Pure.pure ()

/-- `SimulatorManager.is_app_installed`: resolve the bundle identifier, then
probe the app container through the safe path; the boolean is the probe's
success flag. -/
def SimulatorManager.is_app_installed (w : World) (cr : CommandRunner) (cfg : SimulatorConfig) : M Bool := do
  let bundle_identifier ← SimulatorManager.get_bundle_identifier w cr cfg
  logDebug ("Checking if app with bundle identifier " ++ bundle_identifier ++ " is installed.")
  let res ← cr.run_safe w (containerCmd bundle_identifier)
  let success := res.1
  if success then
    logInfo ("App is already installed on the simulator.")
  else
    logInfo ("App is not installed on the simulator.")
  Pure.pure success

/-- The four weighted install steps, in source order. -/
def installSteps (cfg : SimulatorConfig) (bid : String) : List (List String × Nat × String) :=
  [(cleanCmd cfg, 20, "Cleaning build"),
   (buildCmd cfg, 50, "Building app"),
   (simInstallCmd cfg, 20, "Installing app on simulator"),
   (launchCmd bid, 10, "Launching app on simulator")]

/-- The progress loop body shared by the install and uninstall workflows:
log the step, run its command fail-fast, advance by the step's weight. -/
def runSteps (w : World) (cr : CommandRunner) : List (List String × Nat × String) → M Unit
  | [] => M.pure ()
  | (command, increment, step_desc) :: rest => do
    logInfo step_desc
    let _ ← cr.run w command
    progressAdvance increment
    runSteps w cr rest

/-- `BuildManager.install_app`: the install workflow.  Note that the step
list (and with it a second bundle-identifier resolution) is built before the
progress context opens. -/
def BuildManager.install_app (w : World) (cr : CommandRunner) (cfg : SimulatorConfig) : M Unit := do
  logInfo ("Starting installation...")
  let installed ← SimulatorManager.is_app_installed w cr cfg
  if installed then do
    logInfo ("App is already installed on the simulator. Skipping installation.")
    let bundle_identifier ← SimulatorManager.get_bundle_identifier w cr cfg
    SimulatorManager.launch_app w cr bundle_identifier
    logInfo ("App launched on simulator.")
  else do
    logInfo ("App is not installed. Proceeding with installation.")
    let bid ← SimulatorManager.get_bundle_identifier w cr cfg
    let steps := installSteps cfg bid
    progressAddTask "Installation Progress" 100
    runSteps w cr steps
    logInfo ("Installation and launch completed.")

/-- The identifier-resolution branch of `BuildManager.uninstall_app`: from the
plist when the artifact exists, else scanned out of `-showBuildSettings`
output; `sys.exit(1)` when no line matches, and the uncaught `IndexError`
when the matching line has no equals sign. -/
def resolveUninstallIdentifier (w : World) (cr : CommandRunner) (cfg : SimulatorConfig) : M String :=
  if w.appPathExists then
    SimulatorManager.get_bundle_identifier w cr cfg
  else do
    let result ← cr.run w (settingsCmd cfg)
    match (splitlines result).find? (fun line => containsSub line "PRODUCT_BUNDLE_IDENTIFIER") with
    | some line =>
      match (splitOnEq line)[1]? with
      | some seg => Pure.pure (pyStrip seg)
      | none => pyCrash "IndexError: list index out of range"
    | none => do
      logError ("Failed to retrieve CFBundleIdentifier.")
      sysExit 1

/-- `BuildManager.uninstall_app`: the uninstall workflow. -/
def BuildManager.uninstall_app (w : World) (cr : CommandRunner) (cfg : SimulatorConfig) : M Unit := do
  logInfo ("Starting uninstallation...")
  let bundle_identifier ← resolveUninstallIdentifier w cr cfg
  logDebug ("Retrieved CFBundleIdentifier: " ++ bundle_identifier)
  progressAddTask "Uninstallation Progress" 100
  runSteps w cr [(simUninstallCmd bundle_identifier, 100, "Uninstalling app from simulator")]
  logInfo ("App uninstalled from the simulator.")

/-- `BuildManager.refresh_app`: uninstall, then install. -/
def BuildManager.refresh_app (w : World) (cr : CommandRunner) (cfg : SimulatorConfig) : M Unit := do
  logInfo ("Refreshing the app...")
  BuildManager.uninstall_app w cr cfg
  BuildManager.install_app w cr cfg
  logInfo ("Refresh completed.")

/-- The runner the CLI constructs for every subcommand:
`CommandRunnerConfig(shell=False, check=True)`. -/
def cliRunner : CommandRunner :=
  { shell := false, check := true }

/-- The finalized default configuration the CLI passes to `BuildManager`. -/
def defaultConfig : SimulatorConfig :=
  SimulatorConfig.set_app_path {}

/-- The process exit code the CLI run ends with: 0 on normal return,
the code passed to `sys.exit`, and 1 for an uncaught exception. -/
def processExitCode (m : M Unit) : Nat :=
  match m.2 with
  | Except.ok _ => 0
  | Except.error (Halt.exited c) => c
  | Except.error (Halt.crashed _) => 1

/-- The subprocess invocations recorded in a trace, in order. -/
def cmdsOf (tr : List Event) : List (List String) :=
  tr.filterMap (fun e =>
    match e with
    | Event.cmd c => some c
    | _ => none)

/-- The progress advances recorded in a trace, in order. -/
def advancesOf (tr : List Event) : List Nat :=
  tr.filterMap (fun e =>
    match e with
    | Event.progressAdv n => some n
    | _ => none)

/-- The bundle identifier the plist query yields in world `w`: the stripped
output of the PlistBuddy invocation. -/
def bidOf (w : World) (cfg : SimulatorConfig) : String :=
  pyStrip (w.exec (plistBuddyCmd cfg)).output

/-- The trace of one successful fail-fast invocation. -/
def runOkTrace (w : World) (c : List String) : List Event :=
  Event.log Level.debug ("Executing command: " ++ joinSpace c) :: Event.cmd c ::
    (splitlines (w.exec c).output).map (Event.log Level.debug)


/-- The trace of one successful bundle-identifier resolution. -/
def gbiOkTrace (w : World) (cfg : SimulatorConfig) : List Event :=
  runOkTrace w (plutilCmd cfg) ++ runOkTrace w (plistBuddyCmd cfg) ++
    [Event.log Level.debug ("Retrieved CFBundleIdentifier: " ++ bidOf w cfg)]


/-- The trace of `is_app_installed` up to and including the container probe's
debug/cmd prefix. -/
def iaiPrefixTrace (w : World) (cfg : SimulatorConfig) : List Event :=
  gbiOkTrace w cfg ++
    [Event.log Level.debug
      ("Checking if app with bundle identifier " ++ bidOf w cfg ++ " is installed.")]


/-- Every command a workflow can issue satisfies this: an `xcrun` invocation
is neither `simctl boot` nor `simctl bootstatus`, and its device argument is
the literal `booted`. -/
@[reducible]
def devSafe (args : List String) : Prop :=
  args.head? = some "xcrun" →
    (args[2]? ≠ some "boot" ∧ args[2]? ≠ some "bootstatus" ∧ args[3]? = some "booted")


/-- All commands recorded by a computation are `devSafe`. -/
@[reducible]
def MOK {α : Type} (m : M α) : Prop :=
  ∀ c ∈ cmdsOf m.1, devSafe c


deriving instance DecidableEq for Except

/-! ### Concrete instances for witnesses and counterexamples -/

/-- The finalized default configuration, as the CLI builds it. -/
def cfg0 : SimulatorConfig :=
  defaultConfig

/-- A world where the artifact is built and the app is already installed:
every command succeeds, the PlistBuddy query prints the identifier. -/
def w_installed : World where
  exec := fun c =>
    { launchError := none,
      exitCode := 0,
      output := if c = plistBuddyCmd cfg0 then "com.example.app\n" else "" }
  plistExists := true
  appPathExists := true

/-- A world where the artifact is built but the app is not installed:
the container query exits 1, everything else succeeds. -/
def w_notinstalled : World where
  exec := fun c =>
    { launchError := none,
      exitCode := if c = containerCmd "com.example.app" then 1 else 0,
      output := if c = plistBuddyCmd cfg0 then "com.example.app\n" else "" }
  plistExists := true
  appPathExists := false

/-- A fresh checkout: no artifact on disk, no `Info.plist`, and (for the
uninstall fallback) build-settings output with no identifier line. -/
def w_fresh : World where
  exec := fun _ => { launchError := none, exitCode := 0, output := "" }
  plistExists := false
  appPathExists := false

/-- No artifact on disk, but build settings that carry the identifier line. -/
def w_settings : World where
  exec := fun c =>
    { launchError := none,
      exitCode := 0,
      output :=
        if c = settingsCmd cfg0 then
          "    BUILD_DIR = /tmp/x\n    PRODUCT_BUNDLE_IDENTIFIER = com.example.app\nTAIL = y"
        else "" }
  plistExists := false
  appPathExists := false

/-- A world where every command exits 1 with output `boom`. -/
def w_failsafe : World where
  exec := fun _ => { launchError := none, exitCode := 1, output := "boom" }
  plistExists := true
  appPathExists := true


/-! ### Evaluation infrastructure -/

theorem bind_eq_bind (x : M α) (f : α → M β) : x >>= f = M.bind x f :=
  rfl

@[simp]
theorem M.bind_ok (tr : List Event) (a : α) (f : α → M β) :
    M.bind (tr, Except.ok a) f = (tr ++ (f a).1, (f a).2) :=
  rfl

@[simp]
theorem M.bind_error (tr : List Event) (h : Halt) (f : α → M β) :
    M.bind (tr, Except.error h) f = (tr, Except.error h) :=
  rfl

@[simp]
theorem pure_eq_pair (a : α) : (Pure.pure a : M α) = ([], Except.ok a) :=
  rfl

@[simp]
theorem M.pure_def (a : α) : (M.pure a : M α) = ([], Except.ok a) :=
  rfl

@[simp]
theorem cmdsOf_nil : cmdsOf [] = [] :=
  rfl

@[simp]
theorem cmdsOf_cons_log (lvl : Level) (s : String) (tr : List Event) :
    cmdsOf (Event.log lvl s :: tr) = cmdsOf tr :=
  rfl

@[simp]
theorem cmdsOf_cons_cmd (c : List String) (tr : List Event) :
    cmdsOf (Event.cmd c :: tr) = c :: cmdsOf tr :=
  rfl

@[simp]
theorem cmdsOf_cons_progressAdd (l : String) (n : Nat) (tr : List Event) :
    cmdsOf (Event.progressAdd l n :: tr) = cmdsOf tr :=
  rfl

@[simp]
theorem cmdsOf_cons_progressAdv (n : Nat) (tr : List Event) :
    cmdsOf (Event.progressAdv n :: tr) = cmdsOf tr :=
  rfl

@[simp]
theorem cmdsOf_append (t u : List Event) : cmdsOf (t ++ u) = cmdsOf t ++ cmdsOf u := by
  simp [cmdsOf]

@[simp]
theorem cmdsOf_map_log (lvl : Level) (ls : List String) :
    cmdsOf (ls.map (Event.log lvl)) = [] := by
  simp [cmdsOf]

@[simp]
theorem advancesOf_nil : advancesOf [] = [] :=
  rfl

@[simp]
theorem advancesOf_cons_log (lvl : Level) (s : String) (tr : List Event) :
    advancesOf (Event.log lvl s :: tr) = advancesOf tr :=
  rfl

@[simp]
theorem advancesOf_cons_cmd (c : List String) (tr : List Event) :
    advancesOf (Event.cmd c :: tr) = advancesOf tr :=
  rfl

@[simp]
theorem advancesOf_cons_progressAdd (l : String) (n : Nat) (tr : List Event) :
    advancesOf (Event.progressAdd l n :: tr) = advancesOf tr :=
  rfl

@[simp]
theorem advancesOf_cons_progressAdv (n : Nat) (tr : List Event) :
    advancesOf (Event.progressAdv n :: tr) = n :: advancesOf tr :=
  rfl

@[simp]
theorem advancesOf_append (t u : List Event) :
    advancesOf (t ++ u) = advancesOf t ++ advancesOf u := by
  simp [advancesOf]

@[simp]
theorem advancesOf_map_log (lvl : Level) (ls : List String) :
    advancesOf (ls.map (Event.log lvl)) = [] := by
  simp [advancesOf]

/-- Simp set for unfolding the embedded code down to trace pairs. -/
theorem exec_simps_marker : True :=
  trivial

@[simp]
theorem cmdsOf_runOkTrace (w : World) (c : List String) :
    cmdsOf (runOkTrace w c) = [c] := by
  simp [runOkTrace]

@[simp]
theorem advancesOf_runOkTrace (w : World) (c : List String) :
    advancesOf (runOkTrace w c) = [] := by
  simp [runOkTrace]

/-- `run` on a command that launches and exits zero. -/
theorem run_ok (cr : CommandRunner) (w : World) (c : List String)
    (hle : (w.exec c).launchError = none) (hec : (w.exec c).exitCode = 0) :
    cr.run w c = (runOkTrace w c, Except.ok (w.exec c).output) := by
  simp [CommandRunner.run, runOkTrace, bind_eq_bind, logDebug, emitCmd, logLines, hle, hec]

/-- `run` with the fail-fast flag set, on a command that exits non-zero:
a summary at error, every output line at error, then `sys.exit(1)`. -/
theorem run_fail (cr : CommandRunner) (w : World) (c : List String)
    (hck : cr.check = true)
    (hle : (w.exec c).launchError = none) (hec : (w.exec c).exitCode ≠ 0) :
    cr.run w c =
      (Event.log Level.debug ("Executing command: " ++ joinSpace c) :: Event.cmd c ::
        Event.log Level.error ("Command failed: " ++ joinSpace c) ::
        (splitlines (w.exec c).output).map (Event.log Level.error),
       Except.error (Halt.exited 1)) := by
  simp [CommandRunner.run, bind_eq_bind, logDebug, logError, emitCmd, logLines, sysExit,
    hle, hck, hec]

/-- `run` on a command whose launch raises: the exception is not caught. -/
theorem run_crash (cr : CommandRunner) (w : World) (c : List String) (e : String)
    (hle : (w.exec c).launchError = some e) :
    cr.run w c =
      ([Event.log Level.debug ("Executing command: " ++ joinSpace c), Event.cmd c],
       Except.error (Halt.crashed e)) := by
  simp [CommandRunner.run, bind_eq_bind, logDebug, emitCmd, pyCrash, hle]

/-- `run_safe` on a command that launches and exits zero. -/
theorem run_safe_ok (cr : CommandRunner) (w : World) (c : List String)
    (hle : (w.exec c).launchError = none) (hec : (w.exec c).exitCode = 0) :
    cr.run_safe w c =
      (Event.log Level.debug ("Executing command safely: " ++ joinSpace c) :: Event.cmd c ::
        (splitlines (w.exec c).output).map (Event.log Level.debug),
       Except.ok (true, (w.exec c).output)) := by
  simp [CommandRunner.run_safe, bind_eq_bind, logDebug, emitCmd, logLines, hle, hec]

/-- `run_safe` on a command that launches and exits non-zero: one warning
summary, the output lines at debug, and a `false` success flag. -/
theorem run_safe_fail (cr : CommandRunner) (w : World) (c : List String)
    (hle : (w.exec c).launchError = none) (hec : (w.exec c).exitCode ≠ 0) :
    cr.run_safe w c =
      (Event.log Level.debug ("Executing command safely: " ++ joinSpace c) :: Event.cmd c ::
        Event.log Level.warning ("Command failed (but continuing): " ++ joinSpace c) ::
        (splitlines (w.exec c).output).map (Event.log Level.debug),
       Except.ok (false, (w.exec c).output)) := by
  have h0 : ((w.exec c).exitCode == 0) = false := by
    simpa using hec
  simp [CommandRunner.run_safe, bind_eq_bind, logDebug, logWarning, emitCmd, logLines, hle, hec, h0]

/-- `run_safe` on a command whose launch raises: caught, logged, mapped to
`(false, exception text)`. -/
theorem run_safe_crash (cr : CommandRunner) (w : World) (c : List String) (e : String)
    (hle : (w.exec c).launchError = some e) :
    cr.run_safe w c =
      ([Event.log Level.debug ("Executing command safely: " ++ joinSpace c), Event.cmd c,
        Event.log Level.error ("Exception while running command: " ++ e)],
       Except.ok (false, e)) := by
  simp [CommandRunner.run_safe, bind_eq_bind, logDebug, logError, emitCmd, hle]

@[simp]
theorem cmdsOf_gbiOkTrace (w : World) (cfg : SimulatorConfig) :
    cmdsOf (gbiOkTrace w cfg) = [plutilCmd cfg, plistBuddyCmd cfg] := by
  simp [gbiOkTrace]

@[simp]
theorem advancesOf_gbiOkTrace (w : World) (cfg : SimulatorConfig) :
    advancesOf (gbiOkTrace w cfg) = [] := by
  simp [gbiOkTrace]

@[simp]
theorem cmdsOf_iaiPrefixTrace (w : World) (cfg : SimulatorConfig) :
    cmdsOf (iaiPrefixTrace w cfg) = [plutilCmd cfg, plistBuddyCmd cfg] := by
  simp [iaiPrefixTrace]

@[simp]
theorem advancesOf_iaiPrefixTrace (w : World) (cfg : SimulatorConfig) :
    advancesOf (iaiPrefixTrace w cfg) = [] := by
  simp [iaiPrefixTrace]

/-- `get_bundle_identifier` when `Info.plist` exists and both plist commands
succeed: returns the stripped PlistBuddy output. -/
theorem gbi_ok (w : World) (cr : CommandRunner) (cfg : SimulatorConfig)
    (hp : w.plistExists = true)
    (hle1 : (w.exec (plutilCmd cfg)).launchError = none)
    (he1 : (w.exec (plutilCmd cfg)).exitCode = 0)
    (hle2 : (w.exec (plistBuddyCmd cfg)).launchError = none)
    (he2 : (w.exec (plistBuddyCmd cfg)).exitCode = 0) :
    SimulatorManager.get_bundle_identifier w cr cfg =
      (gbiOkTrace w cfg, Except.ok (bidOf w cfg)) := by
  simp [SimulatorManager.get_bundle_identifier, bind_eq_bind, hp,
    run_ok cr w (plutilCmd cfg) hle1 he1, run_ok cr w (plistBuddyCmd cfg) hle2 he2,
    logDebug, bidOf, gbiOkTrace]

/-- `get_bundle_identifier` when `Info.plist` is absent: logs an error and
terminates the process with exit code 1 before issuing any command. -/
theorem gbi_noplist (w : World) (cr : CommandRunner) (cfg : SimulatorConfig)
    (hp : w.plistExists = false) :
    SimulatorManager.get_bundle_identifier w cr cfg =
      ([Event.log Level.error ("Info.plist not found at " ++ cfg.plistPathStr)],
       Except.error (Halt.exited 1)) := by
  simp [SimulatorManager.get_bundle_identifier, bind_eq_bind, hp, logError, sysExit]

/-- `is_app_installed` when the container query exits zero. -/
theorem iai_true (w : World) (cr : CommandRunner) (cfg : SimulatorConfig)
    (hp : w.plistExists = true)
    (hle1 : (w.exec (plutilCmd cfg)).launchError = none)
    (he1 : (w.exec (plutilCmd cfg)).exitCode = 0)
    (hle2 : (w.exec (plistBuddyCmd cfg)).launchError = none)
    (he2 : (w.exec (plistBuddyCmd cfg)).exitCode = 0)
    (hlec : (w.exec (containerCmd (bidOf w cfg))).launchError = none)
    (hec : (w.exec (containerCmd (bidOf w cfg))).exitCode = 0) :
    SimulatorManager.is_app_installed w cr cfg =
      (iaiPrefixTrace w cfg ++
        (Event.log Level.debug
            ("Executing command safely: " ++ joinSpace (containerCmd (bidOf w cfg))) ::
          Event.cmd (containerCmd (bidOf w cfg)) ::
          (splitlines (w.exec (containerCmd (bidOf w cfg))).output).map (Event.log Level.debug)) ++
        [Event.log Level.info "App is already installed on the simulator."],
       Except.ok true) := by
  simp [SimulatorManager.is_app_installed, bind_eq_bind,
    gbi_ok w cr cfg hp hle1 he1 hle2 he2,
    run_safe_ok cr w (containerCmd (bidOf w cfg)) hlec hec,
    logDebug, logInfo, iaiPrefixTrace]

/-- `is_app_installed` when the container query exits non-zero. -/
theorem iai_false (w : World) (cr : CommandRunner) (cfg : SimulatorConfig)
    (hp : w.plistExists = true)
    (hle1 : (w.exec (plutilCmd cfg)).launchError = none)
    (he1 : (w.exec (plutilCmd cfg)).exitCode = 0)
    (hle2 : (w.exec (plistBuddyCmd cfg)).launchError = none)
    (he2 : (w.exec (plistBuddyCmd cfg)).exitCode = 0)
    (hlec : (w.exec (containerCmd (bidOf w cfg))).launchError = none)
    (hec : (w.exec (containerCmd (bidOf w cfg))).exitCode ≠ 0) :
    SimulatorManager.is_app_installed w cr cfg =
      (iaiPrefixTrace w cfg ++
        (Event.log Level.debug
            ("Executing command safely: " ++ joinSpace (containerCmd (bidOf w cfg))) ::
          Event.cmd (containerCmd (bidOf w cfg)) ::
          Event.log Level.warning
            ("Command failed (but continuing): " ++ joinSpace (containerCmd (bidOf w cfg))) ::
          (splitlines (w.exec (containerCmd (bidOf w cfg))).output).map (Event.log Level.debug)) ++
        [Event.log Level.info "App is not installed on the simulator."],
       Except.ok false) := by
  simp [SimulatorManager.is_app_installed, bind_eq_bind,
    gbi_ok w cr cfg hp hle1 he1 hle2 he2,
    run_safe_fail cr w (containerCmd (bidOf w cfg)) hlec hec,
    logDebug, logInfo, iaiPrefixTrace]

/-- `run` with the fail-fast flag cleared: no exception is raised, so the
output lines are logged at debug even on a non-zero exit. -/
theorem run_nocheck (cr : CommandRunner) (w : World) (c : List String)
    (hck : cr.check = false) (hle : (w.exec c).launchError = none) :
    cr.run w c = (runOkTrace w c, Except.ok (w.exec c).output) := by
  simp [CommandRunner.run, runOkTrace, bind_eq_bind, logDebug, emitCmd, logLines, hle, hck]

/-- Every `run` call records exactly its own invocation. -/
theorem run_cmds (cr : CommandRunner) (w : World) (c : List String) :
    cmdsOf (cr.run w c).1 = [c] := by
  cases hle : (w.exec c).launchError with
  | some e => rw [run_crash cr w c e hle]; simp [cmdsOf]
  | none =>
    by_cases h0 : (w.exec c).exitCode = 0
    · rw [run_ok cr w c hle h0]; simp
    · by_cases hck : cr.check = true
      · rw [run_fail cr w c hck hle h0]; simp [cmdsOf]
      · rw [run_nocheck cr w c (by simpa using hck) hle]; simp

/-- Every `run_safe` call records exactly its own invocation. -/
theorem run_safe_cmds (cr : CommandRunner) (w : World) (c : List String) :
    cmdsOf (cr.run_safe w c).1 = [c] := by
  cases hle : (w.exec c).launchError with
  | some e => rw [run_safe_crash cr w c e hle]; simp [cmdsOf]
  | none =>
    by_cases h0 : (w.exec c).exitCode = 0
    · rw [run_safe_ok cr w c hle h0]; simp
    · rw [run_safe_fail cr w c hle h0]; simp [cmdsOf]

/-- `is_app_installed` when the container query cannot even be launched:
still returns `false`. -/
theorem iai_crash_false (w : World) (cr : CommandRunner) (cfg : SimulatorConfig) (e : String)
    (hp : w.plistExists = true)
    (hle1 : (w.exec (plutilCmd cfg)).launchError = none)
    (he1 : (w.exec (plutilCmd cfg)).exitCode = 0)
    (hle2 : (w.exec (plistBuddyCmd cfg)).launchError = none)
    (he2 : (w.exec (plistBuddyCmd cfg)).exitCode = 0)
    (hlec : (w.exec (containerCmd (bidOf w cfg))).launchError = some e) :
    SimulatorManager.is_app_installed w cr cfg =
      (iaiPrefixTrace w cfg ++
        [Event.log Level.debug
            ("Executing command safely: " ++ joinSpace (containerCmd (bidOf w cfg))),
          Event.cmd (containerCmd (bidOf w cfg)),
          Event.log Level.error ("Exception while running command: " ++ e),
          Event.log Level.info "App is not installed on the simulator."],
       Except.ok false) := by
  simp [SimulatorManager.is_app_installed, bind_eq_bind,
    gbi_ok w cr cfg hp hle1 he1 hle2 he2,
    run_safe_crash cr w (containerCmd (bidOf w cfg)) e hlec,
    logDebug, logInfo, iaiPrefixTrace]

/-- `M.bind` when the first computation halts. -/
theorem M.bind_of_error {x : M α} {t : Halt} (f : α → M β) (h : x.2 = Except.error t) :
    M.bind x f = (x.1, Except.error t) := by
  unfold M.bind
  rw [h]

/-- `M.bind` when the first computation returns. -/
theorem M.bind_of_ok {x : M α} {a : α} (f : α → M β) (h : x.2 = Except.ok a) :
    M.bind x f = (x.1 ++ (f a).1, (f a).2) := by
  unfold M.bind
  rw [h]

/-- Binding a continuation that issues no commands adds no commands. -/
theorem cmdsOf_bind_no_cmds {α β : Type} {x : M α} {g : α → M β}
    (h : ∀ a, cmdsOf (g a).1 = []) :
    cmdsOf (M.bind x g).1 = cmdsOf x.1 := by
  unfold M.bind
  cases hx : x.2 <;> dsimp only <;> simp [h]

/-! ### Reachable commands never boot the simulator -/

theorem MOK_bind {α β : Type} {x : M α} {f : α → M β}
    (hx : MOK x) (hf : ∀ a, MOK (f a)) : MOK (x >>= f) := by
  intro c hc
  rw [bind_eq_bind] at hc
  unfold M.bind at hc
  cases hx2 : x.2 with
  | error t =>
    rw [hx2] at hc
    exact hx c hc
  | ok a =>
    rw [hx2] at hc
    dsimp only at hc
    rw [cmdsOf_append] at hc
    rcases List.mem_append.mp hc with h1 | h2
    · exact hx c h1
    · exact hf a c h2

theorem MOK_of_no_cmds {α : Type} {m : M α} (h : cmdsOf m.1 = []) : MOK m := by
  intro c hc
  rw [h] at hc
  cases hc

theorem MOK_of_single {α : Type} {m : M α} {c₀ : List String}
    (h : cmdsOf m.1 = [c₀]) (hc : devSafe c₀) : MOK m := by
  intro c hcm
  rw [h] at hcm
  rcases List.mem_singleton.mp hcm with rfl
  exact hc

theorem devSafe_not_xcrun {c : List String} (h : c.head? ≠ some "xcrun") : devSafe c :=
  fun hx => absurd hx h

theorem devSafe_simctl (verb arg : String) (h1 : verb ≠ "boot") (h2 : verb ≠ "bootstatus") :
    devSafe ["xcrun", "simctl", verb, "booted", arg] := by
  intro _
  refine ⟨?_, ?_, rfl⟩ <;> simp [h1, h2]

theorem mok_run (cr : CommandRunner) (w : World) {c : List String} (hc : devSafe c) :
    MOK (cr.run w c) :=
  MOK_of_single (run_cmds cr w c) hc

theorem mok_run_safe (cr : CommandRunner) (w : World) {c : List String} (hc : devSafe c) :
    MOK (cr.run_safe w c) :=
  MOK_of_single (run_safe_cmds cr w c) hc

theorem mok_gbi (w : World) (cr : CommandRunner) (cfg : SimulatorConfig) :
    MOK (SimulatorManager.get_bundle_identifier w cr cfg) := by
  unfold SimulatorManager.get_bundle_identifier
  by_cases hp : w.plistExists = true
  · rw [if_pos hp]
    refine MOK_bind ?_ ?_
    · exact mok_run cr w (devSafe_not_xcrun (by simp [plutilCmd]))
    intro _
    refine MOK_bind ?_ ?_
    · exact mok_run cr w (devSafe_not_xcrun (by simp [plistBuddyCmd]))
    intro result
    refine MOK_bind ?_ ?_
    · exact MOK_of_no_cmds rfl
    intro _
    exact MOK_of_no_cmds rfl
  · rw [if_neg hp]
    refine MOK_bind ?_ ?_
    · exact MOK_of_no_cmds rfl
    intro _
    exact MOK_of_no_cmds rfl

theorem mok_iai (w : World) (cr : CommandRunner) (cfg : SimulatorConfig) :
    MOK (SimulatorManager.is_app_installed w cr cfg) := by
  unfold SimulatorManager.is_app_installed
  refine MOK_bind (mok_gbi w cr cfg) ?_
  intro bid
  refine MOK_bind ?_ ?_
  · exact MOK_of_no_cmds rfl
  intro _
  refine MOK_bind ?_ ?_
  · exact mok_run_safe cr w (devSafe_simctl "get_app_container" bid (by decide) (by decide))
  intro res
  dsimp only
  by_cases hs : res.1 = true
  · rw [if_pos hs]
    refine MOK_bind ?_ ?_
    · exact MOK_of_no_cmds rfl
    intro _
    exact MOK_of_no_cmds rfl
  · rw [if_neg hs]
    refine MOK_bind ?_ ?_
    · exact MOK_of_no_cmds rfl
    intro _
    exact MOK_of_no_cmds rfl

theorem mok_launch (w : World) (cr : CommandRunner) (bid : String) :
    MOK (SimulatorManager.launch_app w cr bid) := by
  unfold SimulatorManager.launch_app
  refine MOK_bind ?_ ?_
  · exact MOK_of_no_cmds rfl
  intro _
  refine MOK_bind ?_ ?_
  · exact mok_run cr w (devSafe_simctl "launch" bid (by decide) (by decide))
  intro _
  exact MOK_of_no_cmds rfl

theorem mok_runSteps (w : World) (cr : CommandRunner)
    (steps : List (List String × Nat × String)) (h : ∀ s ∈ steps, devSafe s.1) :
    MOK (runSteps w cr steps) := by
  induction steps with
  | nil => exact MOK_of_no_cmds rfl
  | cons s rest ih =>
    obtain ⟨command, increment, step_desc⟩ := s
    unfold runSteps
    refine MOK_bind ?_ ?_
    · exact MOK_of_no_cmds rfl
    intro _
    refine MOK_bind ?_ ?_
    · exact mok_run cr w (h _ (List.mem_cons_self _ _))
    intro _
    refine MOK_bind ?_ ?_
    · exact MOK_of_no_cmds rfl
    intro _
    exact ih (fun t ht => h t (List.mem_cons_of_mem _ ht))

theorem mok_install_workflow (w : World) (cr : CommandRunner) (cfg : SimulatorConfig) :
    MOK (BuildManager.install_app w cr cfg) := by
  unfold BuildManager.install_app
  refine MOK_bind ?_ ?_
  · exact MOK_of_no_cmds rfl
  intro _
  refine MOK_bind (mok_iai w cr cfg) ?_
  intro installed
  by_cases hi : installed = true
  · rw [if_pos hi]
    refine MOK_bind ?_ ?_
    · exact MOK_of_no_cmds rfl
    intro _
    refine MOK_bind (mok_gbi w cr cfg) ?_
    intro bid
    refine MOK_bind (mok_launch w cr bid) ?_
    intro _
    exact MOK_of_no_cmds rfl
  · rw [if_neg hi]
    refine MOK_bind ?_ ?_
    · exact MOK_of_no_cmds rfl
    intro _
    refine MOK_bind (mok_gbi w cr cfg) ?_
    intro bid
    dsimp only
    refine MOK_bind ?_ ?_
    · exact MOK_of_no_cmds rfl
    intro _
    refine MOK_bind ?_ ?_
    · refine mok_runSteps w cr _ ?_
      intro s hs
      simp only [installSteps, List.mem_cons, List.not_mem_nil, or_false] at hs
      rcases hs with rfl | rfl | rfl | rfl
      · exact devSafe_not_xcrun (by simp [cleanCmd])
      · exact devSafe_not_xcrun (by simp [buildCmd])
      · exact devSafe_simctl "install" _ (by decide) (by decide)
      · exact devSafe_simctl "launch" _ (by decide) (by decide)
    intro _
    exact MOK_of_no_cmds rfl

theorem mok_resolve (w : World) (cr : CommandRunner) (cfg : SimulatorConfig) :
    MOK (resolveUninstallIdentifier w cr cfg) := by
  unfold resolveUninstallIdentifier
  by_cases hap : w.appPathExists = true
  · rw [if_pos hap]
    exact mok_gbi w cr cfg
  · rw [if_neg hap]
    refine MOK_bind ?_ ?_
    · exact mok_run cr w (devSafe_not_xcrun (by simp [settingsCmd]))
    intro result
    cases hf : (splitlines result).find? (fun line => containsSub line "PRODUCT_BUNDLE_IDENTIFIER") with
    | some line =>
      cases hs : (splitOnEq line)[1]? with
      | some seg =>
        simp only [hf, hs]
        exact MOK_of_no_cmds rfl
      | none =>
        simp only [hf, hs]
        exact MOK_of_no_cmds rfl
    | none =>
      simp only [hf]
      refine MOK_bind ?_ ?_
      · exact MOK_of_no_cmds rfl
      intro _
      exact MOK_of_no_cmds rfl

theorem mok_uninstall_workflow (w : World) (cr : CommandRunner) (cfg : SimulatorConfig) :
    MOK (BuildManager.uninstall_app w cr cfg) := by
  unfold BuildManager.uninstall_app
  refine MOK_bind ?_ ?_
  · exact MOK_of_no_cmds rfl
  intro _
  refine MOK_bind (mok_resolve w cr cfg) ?_
  intro bid
  refine MOK_bind ?_ ?_
  · exact MOK_of_no_cmds rfl
  intro _
  refine MOK_bind ?_ ?_
  · exact MOK_of_no_cmds rfl
  intro _
  refine MOK_bind ?_ ?_
  · refine mok_runSteps w cr _ ?_
    intro s hs
    simp only [List.mem_cons, List.not_mem_nil, or_false] at hs
    rcases hs with rfl
    exact devSafe_simctl "uninstall" _ (by decide) (by decide)
  intro _
  exact MOK_of_no_cmds rfl

theorem mok_refresh_workflow (w : World) (cr : CommandRunner) (cfg : SimulatorConfig) :
    MOK (BuildManager.refresh_app w cr cfg) := by
  unfold BuildManager.refresh_app
  refine MOK_bind ?_ ?_
  · exact MOK_of_no_cmds rfl
  intro _
  refine MOK_bind (mok_uninstall_workflow w cr cfg) ?_
  intro _
  refine MOK_bind (mok_install_workflow w cr cfg) ?_
  intro _
  exact MOK_of_no_cmds rfl

/-! ### The claims -/

/-- Claim C9: for every device-target configuration with derived-data path
`D`, scheme `S`, configuration `C` and no explicit bundle-path override, the
finalized application bundle path is exactly
`D/Build/Products/C-iphonesimulator/S.app`; and for every constructed
configuration the field is non-null after finalization. -/
theorem C9_app_path_invariant :
    (∀ cfg : SimulatorConfig, cfg.app_path = none →
      cfg.set_app_path.app_path =
        some (cfg.derived_data_path ++
          ["Build", "Products", cfg.configuration ++ "-iphonesimulator",
            cfg.scheme ++ ".app"])) ∧
    (∀ cfg : SimulatorConfig, cfg.set_app_path.app_path ≠ none) := by
  constructor
  · intro cfg h
    simp [SimulatorConfig.set_app_path, h]
  · intro cfg
    cases h : cfg.app_path with
    | none => simp [SimulatorConfig.set_app_path, h]
    | some p => simp [SimulatorConfig.set_app_path, h]

/-- Witness for C9 at the CLI's default configuration. -/
theorem C9_witness :
    ({} : SimulatorConfig).app_path = none ∧
    (SimulatorConfig.set_app_path {}).app_path =
      some ["build", "Build", "Products", "Debug-iphonesimulator", "ResoNest.app"] ∧
    (SimulatorConfig.set_app_path {}).app_path ≠ none := by
  refine ⟨rfl, ?_, C9_app_path_invariant.2 {}⟩
  rw [C9_app_path_invariant.1 {} rfl]
  decide

/-- Claim C1 is wrong on the code (code bug): starting from the fresh state
in which the app is not installed and the build artifact does not yet exist
(no `Info.plist`), the install workflow does not run clean/build/install/
launch to 100% and exit 0 as claimed; it terminates with process exit code 1
from the `Info.plist` precondition inside the installed-check, before a
single external command or progress update is issued. -/
theorem C1_fresh_install_exits_one :
    processExitCode (BuildManager.install_app w_fresh cliRunner cfg0) = 1 ∧
    (BuildManager.install_app w_fresh cliRunner cfg0).2 = Except.error (Halt.exited 1) ∧
    cmdsOf (BuildManager.install_app w_fresh cliRunner cfg0).1 = [] ∧
    advancesOf (BuildManager.install_app w_fresh cliRunner cfg0).1 = [] := by
  refine ⟨by decide, by decide, by decide, by decide⟩

/-- Claim C6: `run_safe` never terminates the workflow: it always returns a
`(success, output)` pair, with `success = false` on any non-zero exit or any
launch failure, `output` the captured process output when the process ran,
and the exception text when the launch itself failed. -/
theorem C6_run_safe_total (cr : CommandRunner) (w : World) (command : List String) :
    ∃ p : Bool × String,
      (cr.run_safe w command).2 = Except.ok p ∧
      (((w.exec command).launchError ≠ none ∨ (w.exec command).exitCode ≠ 0) → p.1 = false) ∧
      ((w.exec command).launchError = none →
        ((p.1 = true ↔ (w.exec command).exitCode = 0) ∧ p.2 = (w.exec command).output)) ∧
      (∀ e, (w.exec command).launchError = some e → p.2 = e) := by
  cases hle : (w.exec command).launchError with
  | some e =>
    refine ⟨(false, e), ?_, ?_, ?_, ?_⟩
    · rw [run_safe_crash cr w command e hle]
    · intro _
      rfl
    · intro h
      exact absurd h (by simp)
    · intro e2 he2
      injection he2 with hh
  | none =>
    by_cases h0 : (w.exec command).exitCode = 0
    · refine ⟨(true, (w.exec command).output), ?_, ?_, ?_, ?_⟩
      · rw [run_safe_ok cr w command hle h0]
      · intro hor
        rcases hor with h | h
        · exact absurd rfl h
        · exact absurd h0 h
      · intro _
        exact ⟨⟨fun _ => h0, fun _ => rfl⟩, rfl⟩
      · intro e he
        exact Option.noConfusion he
    · refine ⟨(false, (w.exec command).output), ?_, ?_, ?_, ?_⟩
      · rw [run_safe_fail cr w command hle h0]
      · intro _
        rfl
      · intro _
        refine ⟨⟨fun hh => absurd hh (by simp), fun hh => absurd hh h0⟩, rfl⟩
      · intro e he
        exact Option.noConfusion he

/-- Witness for C6: concrete failing command yields `(false, output)`. -/
theorem C6_witness :
    (cliRunner.run_safe w_failsafe ["tool"]).2 = Except.ok (false, "boom") := by
  obtain ⟨p, h1, h2, h3, _⟩ := C6_run_safe_total cliRunner w_failsafe ["tool"]
  obtain ⟨b, s⟩ := p
  have hb : b = false := h2 (Or.inr (by decide))
  have hs : s = "boom" := ((h3 (by decide)).2).trans (by decide)
  rw [h1, hb, hs]

/-- Claim C5: `is_app_installed` returns `true` exactly when the speculative
get-app-container query run through the safe command path launches and exits
zero; any non-zero exit and any launch failure yield `false`, regardless of
the query's output content. -/
theorem C5_is_app_installed_iff (w : World) (cr : CommandRunner) (cfg : SimulatorConfig)
    (hp : w.plistExists = true)
    (hle1 : (w.exec (plutilCmd cfg)).launchError = none)
    (he1 : (w.exec (plutilCmd cfg)).exitCode = 0)
    (hle2 : (w.exec (plistBuddyCmd cfg)).launchError = none)
    (he2 : (w.exec (plistBuddyCmd cfg)).exitCode = 0) :
    ∃ tr b, SimulatorManager.is_app_installed w cr cfg = (tr, Except.ok b) ∧
      (b = true ↔
        ((w.exec (containerCmd (bidOf w cfg))).launchError = none ∧
         (w.exec (containerCmd (bidOf w cfg))).exitCode = 0)) := by
  cases hlec : (w.exec (containerCmd (bidOf w cfg))).launchError with
  | some e =>
    refine ⟨_, false, iai_crash_false w cr cfg e hp hle1 he1 hle2 he2 hlec, ?_⟩
    simp [hlec]
  | none =>
    by_cases hec : (w.exec (containerCmd (bidOf w cfg))).exitCode = 0
    · refine ⟨_, true, iai_true w cr cfg hp hle1 he1 hle2 he2 hlec hec, ?_⟩
      simp [hlec, hec]
    · refine ⟨_, false, iai_false w cr cfg hp hle1 he1 hle2 he2 hlec hec, ?_⟩
      simp [hlec, hec]

/-- Witness for C5 in both directions: installed world gives `true`,
not-installed world gives `false`. -/
theorem C5_witness :
    (∃ tr, SimulatorManager.is_app_installed w_installed cliRunner cfg0 = (tr, Except.ok true)) ∧
    (∃ tr, SimulatorManager.is_app_installed w_notinstalled cliRunner cfg0 = (tr, Except.ok false)) := by
  constructor
  · obtain ⟨tr, b, h1, h2⟩ :=
      C5_is_app_installed_iff w_installed cliRunner cfg0 (by decide) rfl (by decide) rfl (by decide)
    have hb : b = true := h2.mpr ⟨rfl, by decide⟩
    rw [hb] at h1
    exact ⟨tr, h1⟩
  · obtain ⟨tr, b, h1, h2⟩ :=
      C5_is_app_installed_iff w_notinstalled cliRunner cfg0 (by decide) rfl (by decide) rfl (by decide)
    have hb : b = false := by
      cases b
      · rfl
      · exact absurd (h2.mp rfl).2 (by decide)
    rw [hb] at h1
    exact ⟨tr, h1⟩

/-- Claim C2: in any run of the install workflow in which the environment
lets every issued command succeed, if `is_app_installed()` is true then none
of the clean/build/install-on-device steps execute and only a launch is
performed; if it is false, exactly the four weighted steps execute in order
clean (20), build (50), install (20), launch (10), each advancing the
progress task by its weight, summing to exactly 100. -/
theorem C2_install_branch_behaviour (w : World) (cr : CommandRunner) (cfg : SimulatorConfig)
    (hp : w.plistExists = true)
    (hle : ∀ c, (w.exec c).launchError = none)
    (he1 : (w.exec (plutilCmd cfg)).exitCode = 0)
    (he2 : (w.exec (plistBuddyCmd cfg)).exitCode = 0)
    (hcl : (w.exec (cleanCmd cfg)).exitCode = 0)
    (hbu : (w.exec (buildCmd cfg)).exitCode = 0)
    (hin : (w.exec (simInstallCmd cfg)).exitCode = 0)
    (hla : (w.exec (launchCmd (bidOf w cfg))).exitCode = 0) :
    ((w.exec (containerCmd (bidOf w cfg))).exitCode = 0 →
      (BuildManager.install_app w cr cfg).2 = Except.ok () ∧
      cmdsOf (BuildManager.install_app w cr cfg).1 =
        [plutilCmd cfg, plistBuddyCmd cfg, containerCmd (bidOf w cfg),
         plutilCmd cfg, plistBuddyCmd cfg, launchCmd (bidOf w cfg)] ∧
      advancesOf (BuildManager.install_app w cr cfg).1 = []) ∧
    ((w.exec (containerCmd (bidOf w cfg))).exitCode ≠ 0 →
      (BuildManager.install_app w cr cfg).2 = Except.ok () ∧
      cmdsOf (BuildManager.install_app w cr cfg).1 =
        [plutilCmd cfg, plistBuddyCmd cfg, containerCmd (bidOf w cfg),
         plutilCmd cfg, plistBuddyCmd cfg,
         cleanCmd cfg, buildCmd cfg, simInstallCmd cfg, launchCmd (bidOf w cfg)] ∧
      advancesOf (BuildManager.install_app w cr cfg).1 = [20, 50, 20, 10] ∧
      (advancesOf (BuildManager.install_app w cr cfg).1).sum = 100) := by
  have hgbi := gbi_ok w cr cfg hp (hle _) he1 (hle _) he2
  have hrunL := run_ok cr w (launchCmd (bidOf w cfg)) (hle _) hla
  constructor
  · intro hc
    have hiai := iai_true w cr cfg hp (hle _) he1 (hle _) he2 (hle _) hc
    refine ⟨?_, ?_, ?_⟩ <;>
      simp [BuildManager.install_app, bind_eq_bind, hiai, hgbi,
        SimulatorManager.launch_app, hrunL, logInfo, logDebug]
  · intro hc
    have hiai := iai_false w cr cfg hp (hle _) he1 (hle _) he2 (hle _) hc
    have hrunC := run_ok cr w (cleanCmd cfg) (hle _) hcl
    have hrunB := run_ok cr w (buildCmd cfg) (hle _) hbu
    have hrunI := run_ok cr w (simInstallCmd cfg) (hle _) hin
    refine ⟨?_, ?_, ?_, ?_⟩ <;>
      simp [BuildManager.install_app, bind_eq_bind, hiai, hgbi, installSteps, runSteps,
        hrunC, hrunB, hrunI, hrunL, logInfo, logDebug, progressAddTask, progressAdvance]

/-- Witness for C2: both branches evaluated in concrete worlds. -/
theorem C2_witness :
    cmdsOf (BuildManager.install_app w_installed cliRunner cfg0).1 =
      [plutilCmd cfg0, plistBuddyCmd cfg0, containerCmd (bidOf w_installed cfg0),
       plutilCmd cfg0, plistBuddyCmd cfg0, launchCmd (bidOf w_installed cfg0)] ∧
    advancesOf (BuildManager.install_app w_notinstalled cliRunner cfg0).1 = [20, 50, 20, 10] := by
  constructor
  · exact ((C2_install_branch_behaviour w_installed cliRunner cfg0 (by decide) (fun c => rfl)
      (by decide) (by decide) (by decide) (by decide) (by decide) (by decide)).1 (by decide)).2.1
  · exact ((C2_install_branch_behaviour w_notinstalled cliRunner cfg0 (by decide) (fun c => rfl)
      (by decide) (by decide) (by decide) (by decide) (by decide) (by decide)).2 (by decide)).2.2.1

/-- Counterexample to Claim C3 as stated: in a world where the app is already
installed and every command succeeds, the workflow does exit 0 and skips to
launch, but it issues three external command invocations besides the
installed-check (the first three commands), because the bundle identifier is
re-derived by a second plist conversion and key query — not one invocation,
and not cached. -/
theorem C3_counterexample :
    cmdsOf (BuildManager.install_app w_installed cliRunner cfg0).1 =
      [plutilCmd cfg0, plistBuddyCmd cfg0, containerCmd "com.example.app",
       plutilCmd cfg0, plistBuddyCmd cfg0, launchCmd "com.example.app"] ∧
    ((cmdsOf (BuildManager.install_app w_installed cliRunner cfg0).1).drop 3).length = 3 ∧
    ¬ ((cmdsOf (BuildManager.install_app w_installed cliRunner cfg0).1).drop 3).length = 1 ∧
    processExitCode (BuildManager.install_app w_installed cliRunner cfg0) = 0 := by
  refine ⟨by decide, by decide, by decide, by decide⟩

/-- Claim C3 as amended: when the app is already installed (and the
environment lets every issued command succeed), the install workflow skips
directly to launch and exits 0, but the bundle identifier resolved during
the installed-check is re-derived, not cached: after the three commands of
the installed-check the workflow issues the plist conversion and key query
again and then the launch — three invocations besides the installed-check. -/
theorem C3_already_installed_relaunch (w : World) (cr : CommandRunner) (cfg : SimulatorConfig)
    (hp : w.plistExists = true)
    (hle : ∀ c, (w.exec c).launchError = none)
    (he1 : (w.exec (plutilCmd cfg)).exitCode = 0)
    (he2 : (w.exec (plistBuddyCmd cfg)).exitCode = 0)
    (hla : (w.exec (launchCmd (bidOf w cfg))).exitCode = 0)
    (hc : (w.exec (containerCmd (bidOf w cfg))).exitCode = 0) :
    processExitCode (BuildManager.install_app w cr cfg) = 0 ∧
    (cmdsOf (BuildManager.install_app w cr cfg).1).take 3 =
      [plutilCmd cfg, plistBuddyCmd cfg, containerCmd (bidOf w cfg)] ∧
    (cmdsOf (BuildManager.install_app w cr cfg).1).drop 3 =
      [plutilCmd cfg, plistBuddyCmd cfg, launchCmd (bidOf w cfg)] ∧
    advancesOf (BuildManager.install_app w cr cfg).1 = [] := by
  have hgbi := gbi_ok w cr cfg hp (hle _) he1 (hle _) he2
  have hrunL := run_ok cr w (launchCmd (bidOf w cfg)) (hle _) hla
  have hiai := iai_true w cr cfg hp (hle _) he1 (hle _) he2 (hle _) hc
  refine ⟨?_, ?_, ?_, ?_⟩ <;>
    simp [BuildManager.install_app, bind_eq_bind, hiai, hgbi,
      SimulatorManager.launch_app, hrunL, logInfo, logDebug, processExitCode]

/-- Witness for the amended C3 at the concrete installed world. -/
theorem C3_witness :
    processExitCode (BuildManager.install_app w_installed cliRunner cfg0) = 0 ∧
    (cmdsOf (BuildManager.install_app w_installed cliRunner cfg0).1).drop 3 =
      [plutilCmd cfg0, plistBuddyCmd cfg0, launchCmd (bidOf w_installed cfg0)] := by
  have h := C3_already_installed_relaunch w_installed cliRunner cfg0 (by decide) (fun c => rfl)
    (by decide) (by decide) (by decide) (by decide)
  exact ⟨h.1, h.2.2.1⟩

/-- Claim C4: in the uninstall workflow, if the bundle path exists the
identifier is read from the artifact's property list; if absent it is parsed
from the first build-settings line carrying `PRODUCT_BUNDLE_IDENTIFIER`,
splitting at the equals sign and trimming surrounding whitespace from the
value; if no identifier can be resolved either way, the workflow terminates
fatally with exit code 1 before issuing the device uninstall. -/
theorem C4_uninstall_identifier_resolution (w : World) (cr : CommandRunner) (cfg : SimulatorConfig)
    (hle : ∀ c, (w.exec c).launchError = none) :
    (w.appPathExists = true → w.plistExists = true →
      (w.exec (plutilCmd cfg)).exitCode = 0 →
      (w.exec (plistBuddyCmd cfg)).exitCode = 0 →
      (w.exec (simUninstallCmd (bidOf w cfg))).exitCode = 0 →
      (BuildManager.uninstall_app w cr cfg).2 = Except.ok () ∧
      cmdsOf (BuildManager.uninstall_app w cr cfg).1 =
        [plutilCmd cfg, plistBuddyCmd cfg, simUninstallCmd (bidOf w cfg)]) ∧
    (∀ line k v, w.appPathExists = false →
      (w.exec (settingsCmd cfg)).exitCode = 0 →
      (splitlines (w.exec (settingsCmd cfg)).output).find?
          (fun l => containsSub l "PRODUCT_BUNDLE_IDENTIFIER") = some line →
      splitOnEq line = [k, v] →
      (w.exec (simUninstallCmd (pyStrip v))).exitCode = 0 →
      (BuildManager.uninstall_app w cr cfg).2 = Except.ok () ∧
      cmdsOf (BuildManager.uninstall_app w cr cfg).1 =
        [settingsCmd cfg, simUninstallCmd (pyStrip v)]) ∧
    (w.appPathExists = false →
      (w.exec (settingsCmd cfg)).exitCode = 0 →
      (splitlines (w.exec (settingsCmd cfg)).output).find?
          (fun l => containsSub l "PRODUCT_BUNDLE_IDENTIFIER") = none →
      (BuildManager.uninstall_app w cr cfg).2 = Except.error (Halt.exited 1) ∧
      cmdsOf (BuildManager.uninstall_app w cr cfg).1 = [settingsCmd cfg]) := by
  refine ⟨?_, ?_, ?_⟩
  · intro hap hp he1 he2 heu
    have hgbi := gbi_ok w cr cfg hp (hle _) he1 (hle _) he2
    have hrunU := run_ok cr w (simUninstallCmd (bidOf w cfg)) (hle _) heu
    constructor <;>
      simp [BuildManager.uninstall_app, resolveUninstallIdentifier, bind_eq_bind, hap,
        hgbi, hrunU, runSteps, logInfo, logDebug, progressAddTask, progressAdvance]
  · intro line k v hap hes hfind hsplit heu
    have hrunS := run_ok cr w (settingsCmd cfg) (hle _) hes
    have hrunU := run_ok cr w (simUninstallCmd (pyStrip v)) (hle _) heu
    constructor <;>
      simp [BuildManager.uninstall_app, resolveUninstallIdentifier, bind_eq_bind, hap,
        hrunS, hfind, hsplit, hrunU, runSteps, logInfo, logDebug, progressAddTask,
        progressAdvance]
  · intro hap hes hfind
    have hrunS := run_ok cr w (settingsCmd cfg) (hle _) hes
    constructor <;>
      simp [BuildManager.uninstall_app, resolveUninstallIdentifier, bind_eq_bind, hap,
        hrunS, hfind, logError, sysExit, logInfo]

/-- Witness for C4: all three resolution paths at concrete worlds. -/
theorem C4_witness :
    cmdsOf (BuildManager.uninstall_app w_installed cliRunner cfg0).1 =
      [plutilCmd cfg0, plistBuddyCmd cfg0, simUninstallCmd "com.example.app"] ∧
    cmdsOf (BuildManager.uninstall_app w_settings cliRunner cfg0).1 =
      [settingsCmd cfg0, simUninstallCmd "com.example.app"] ∧
    (BuildManager.uninstall_app w_fresh cliRunner cfg0).2 = Except.error (Halt.exited 1) := by
  have h := C4_uninstall_identifier_resolution w_installed cliRunner cfg0 (fun c => rfl)
  have ha := h.1 rfl (by decide) (by decide) (by decide) (by decide)
  have h2 := C4_uninstall_identifier_resolution w_settings cliRunner cfg0 (fun c => rfl)
  have hb := h2.2.1 "    PRODUCT_BUNDLE_IDENTIFIER = com.example.app"
    "    PRODUCT_BUNDLE_IDENTIFIER " " com.example.app" rfl (by decide) (by decide)
    (by decide) (by decide)
  have h3 := C4_uninstall_identifier_resolution w_fresh cliRunner cfg0 (fun c => rfl)
  have hc := h3.2.2 rfl (by decide) (by decide)
  refine ⟨?_, ?_, hc.1⟩
  · rw [ha.2]
    decide
  · rw [hb.2]
    decide

/-- Counterexample to Claim C7 as stated: on a non-zero exit through
`run_safe`, the captured output line is forwarded at debug severity, not at
error or warning severity. -/
theorem C7_counterexample :
    (w_failsafe.exec ["tool"]).exitCode ≠ 0 ∧
    Event.log Level.debug "boom" ∈ (cliRunner.run_safe w_failsafe ["tool"]).1 ∧
    Event.log Level.error "boom" ∉ (cliRunner.run_safe w_failsafe ["tool"]).1 ∧
    Event.log Level.warning "boom" ∉ (cliRunner.run_safe w_failsafe ["tool"]).1 := by
  refine ⟨by decide, by decide, by decide, by decide⟩

/-- Claim C7 as amended: on a zero exit both `run` and `run_safe` forward
every captured output line at debug severity; a fail-fast `run` that exits
non-zero forwards every output line at error severity and terminates with
`sys.exit(1)`; but a `run_safe` invocation that exits non-zero still forwards
its output lines at debug severity, emitting only a single warning summary
line, and returns `(false, output)`. -/
theorem C7_output_line_severities (cr : CommandRunner) (w : World) (c : List String) :
    ((w.exec c).launchError = none → (w.exec c).exitCode = 0 →
      ∀ l ∈ splitlines (w.exec c).output, Event.log Level.debug l ∈ (cr.run w c).1) ∧
    (cr.check = true → (w.exec c).launchError = none → (w.exec c).exitCode ≠ 0 →
      (∀ l ∈ splitlines (w.exec c).output, Event.log Level.error l ∈ (cr.run w c).1) ∧
      (cr.run w c).2 = Except.error (Halt.exited 1)) ∧
    ((w.exec c).launchError = none → (w.exec c).exitCode = 0 →
      ∀ l ∈ splitlines (w.exec c).output, Event.log Level.debug l ∈ (cr.run_safe w c).1) ∧
    ((w.exec c).launchError = none → (w.exec c).exitCode ≠ 0 →
      (∀ l ∈ splitlines (w.exec c).output, Event.log Level.debug l ∈ (cr.run_safe w c).1) ∧
      Event.log Level.warning ("Command failed (but continuing): " ++ joinSpace c) ∈
        (cr.run_safe w c).1 ∧
      (cr.run_safe w c).2 = Except.ok (false, (w.exec c).output)) := by
  refine ⟨?_, ?_, ?_, ?_⟩
  · intro hle h0 l hl
    rw [run_ok cr w c hle h0]
    exact List.mem_cons_of_mem _ (List.mem_cons_of_mem _ (List.mem_map_of_mem _ hl))
  · intro hck hle h0
    rw [run_fail cr w c hck hle h0]
    refine ⟨?_, rfl⟩
    intro l hl
    exact List.mem_cons_of_mem _ (List.mem_cons_of_mem _ (List.mem_cons_of_mem _
      (List.mem_map_of_mem _ hl)))
  · intro hle h0 l hl
    rw [run_safe_ok cr w c hle h0]
    exact List.mem_cons_of_mem _ (List.mem_cons_of_mem _ (List.mem_map_of_mem _ hl))
  · intro hle h0
    rw [run_safe_fail cr w c hle h0]
    refine ⟨?_, ?_, rfl⟩
    · intro l hl
      exact List.mem_cons_of_mem _ (List.mem_cons_of_mem _ (List.mem_cons_of_mem _
        (List.mem_map_of_mem _ hl)))
    · exact List.mem_cons_of_mem _ (List.mem_cons_of_mem _ (List.mem_cons_self _ _))

/-- Witness for the amended C7 at concrete worlds. -/
theorem C7_witness :
    Event.log Level.error "boom" ∈ (cliRunner.run w_failsafe ["tool"]).1 ∧
    (cliRunner.run w_failsafe ["tool"]).2 = Except.error (Halt.exited 1) ∧
    Event.log Level.debug "boom" ∈ (cliRunner.run_safe w_failsafe ["tool"]).1 ∧
    (cliRunner.run_safe w_failsafe ["tool"]).2 = Except.ok (false, "boom") := by
  have h := C7_output_line_severities cliRunner w_failsafe ["tool"]
  have h2 := h.2.1 rfl rfl (by decide)
  have h4 := h.2.2.2 rfl (by decide)
  refine ⟨h2.1 "boom" (by decide), h2.2, h4.1 "boom" (by decide), ?_⟩
  rw [h4.2.2]
  rfl

/-- Claim C8: the refresh workflow runs the uninstall workflow and only then
the install workflow; when uninstall terminates fatally the refresh run
terminates the same way and issues no command beyond those of the uninstall
phase — the install phase is never invoked. -/
theorem C8_refresh_uninstall_then_install (w : World) (cr : CommandRunner) (cfg : SimulatorConfig) :
    (∀ t, (BuildManager.uninstall_app w cr cfg).2 = Except.error t →
      (BuildManager.refresh_app w cr cfg).2 = Except.error t ∧
      cmdsOf (BuildManager.refresh_app w cr cfg).1 =
        cmdsOf (BuildManager.uninstall_app w cr cfg).1) ∧
    ((BuildManager.uninstall_app w cr cfg).2 = Except.ok () →
      cmdsOf (BuildManager.refresh_app w cr cfg).1 =
        cmdsOf (BuildManager.uninstall_app w cr cfg).1 ++
          cmdsOf (BuildManager.install_app w cr cfg).1) := by
  constructor
  · intro t hu
    unfold BuildManager.refresh_app
    rw [bind_eq_bind]
    simp only [logInfo, bind_eq_bind, M.bind_ok]
    rw [M.bind_of_error _ hu]
    exact ⟨rfl, by simp⟩
  · intro hu
    unfold BuildManager.refresh_app
    rw [bind_eq_bind]
    simp only [logInfo, bind_eq_bind, M.bind_ok]
    rw [M.bind_of_ok _ hu]
    simp only [cmdsOf_append, cmdsOf_cons_log, cmdsOf_nil, List.nil_append]
    exact congrArg (fun z => cmdsOf (BuildManager.uninstall_app w cr cfg).1 ++ z)
      (cmdsOf_bind_no_cmds (fun a => rfl))

/-- Witness for C8: a fatally failing uninstall aborts refresh before any
install command; a successful uninstall is followed by the install phase. -/
theorem C8_witness :
    (BuildManager.refresh_app w_fresh cliRunner cfg0).2 = Except.error (Halt.exited 1) ∧
    cmdsOf (BuildManager.refresh_app w_fresh cliRunner cfg0).1 =
      cmdsOf (BuildManager.uninstall_app w_fresh cliRunner cfg0).1 ∧
    cmdsOf (BuildManager.refresh_app w_installed cliRunner cfg0).1 =
      cmdsOf (BuildManager.uninstall_app w_installed cliRunner cfg0).1 ++
        cmdsOf (BuildManager.install_app w_installed cliRunner cfg0).1 := by
  have h := (C8_refresh_uninstall_then_install w_fresh cliRunner cfg0).1
    (Halt.exited 1) (by decide)
  have h2 := (C8_refresh_uninstall_then_install w_installed cliRunner cfg0).2 (by decide)
  exact ⟨h.1, h.2, h2⟩

/-- Claim C10: no workflow ever invokes the simulator boot operation — the
two commands `boot_simulator` would issue are absent from every reachable
trace of the install, uninstall and refresh workflows in every environment —
and every `xcrun` device command any workflow issues addresses the
already-booted device (`booted`). -/
theorem C10_workflows_never_boot (w : World) (cr : CommandRunner) (cfg : SimulatorConfig) :
    (∀ args ∈ cmdsOf (BuildManager.install_app w cr cfg).1, devSafe args) ∧
    (∀ args ∈ cmdsOf (BuildManager.uninstall_app w cr cfg).1, devSafe args) ∧
    (∀ args ∈ cmdsOf (BuildManager.refresh_app w cr cfg).1, devSafe args) ∧
    bootCmd cfg ∉ cmdsOf (BuildManager.install_app w cr cfg).1 ∧
    bootstatusCmd cfg ∉ cmdsOf (BuildManager.install_app w cr cfg).1 ∧
    bootCmd cfg ∉ cmdsOf (BuildManager.uninstall_app w cr cfg).1 ∧
    bootstatusCmd cfg ∉ cmdsOf (BuildManager.uninstall_app w cr cfg).1 ∧
    bootCmd cfg ∉ cmdsOf (BuildManager.refresh_app w cr cfg).1 ∧
    bootstatusCmd cfg ∉ cmdsOf (BuildManager.refresh_app w cr cfg).1 := by
  have hi := mok_install_workflow w cr cfg
  have hu := mok_uninstall_workflow w cr cfg
  have hr := mok_refresh_workflow w cr cfg
  refine ⟨hi, hu, hr, ?_, ?_, ?_, ?_, ?_, ?_⟩ <;> intro hmem
  · exact ((hi _ hmem) rfl).1 rfl
  · exact ((hi _ hmem) rfl).2.1 rfl
  · exact ((hu _ hmem) rfl).1 rfl
  · exact ((hu _ hmem) rfl).2.1 rfl
  · exact ((hr _ hmem) rfl).1 rfl
  · exact ((hr _ hmem) rfl).2.1 rfl

/-- Witness for C10: a concrete reachable device command targets `booted`,
and the boot command is absent from the concrete trace. -/
theorem C10_witness :
    containerCmd "com.example.app" ∈ cmdsOf (BuildManager.install_app w_installed cliRunner cfg0).1 ∧
    (containerCmd "com.example.app")[2]? ≠ some "boot" ∧
    (containerCmd "com.example.app")[3]? = some "booted" ∧
    bootCmd cfg0 ∉ cmdsOf (BuildManager.install_app w_installed cliRunner cfg0).1 := by
  have h := C10_workflows_never_boot w_installed cliRunner cfg0
  have hmem : containerCmd "com.example.app" ∈
      cmdsOf (BuildManager.install_app w_installed cliRunner cfg0).1 := by decide
  have hd := h.1 _ hmem rfl
  exact ⟨hmem, hd.1, hd.2.2, h.2.2.2.1⟩

end ResoNest
